import Mathlib

/-!
Verification of the cell codec in `stem/client/cell.py`: the ORPort cell
framing layer (pack/unpack of fixed- and variable-size cells, the circuit-id
resolution rule of `CircuitCell._pack`, and the registry lookups `by_name` /
`by_value`).

Bytes are modelled as natural numbers (each in `0..255` on the wire); byte
strings as `List Nat`.  `struct.pack` with the `!B` / `!H` / `!L` formats is
modelled by `packChar` / `packShort` / `packLong`, returning `none` where the
Python call would raise `struct.error` (value out of range).  Python
exceptions raised by the codec itself are modelled with explicit error types.
-/

deriving instance DecidableEq for Except

namespace Stem

/-! ## Field codec: big-endian integer helpers (`struct.pack` formats) -/

/-- Model of Python struct.pack with format !B (one unsigned byte). -/
def packChar (v : Int) : Option (List Nat) :=
  if 0 ≤ v ∧ v < 256 then some [v.toNat] else none

/-- Model of Python struct.pack with format !H (2-byte big-endian unsigned). -/
def packShort (v : Nat) : Option (List Nat) :=
  if v < 65536 then some [v / 256, v % 256] else none

/-- Model of Python struct.pack with format !L (4-byte big-endian unsigned). -/
def packLong (v : Nat) : Option (List Nat) :=
  if v < 4294967296 then
    some [v / 16777216, v / 65536 % 256, v / 256 % 256, v % 256]
  else none

/-- Read a 2-byte big-endian unsigned integer off the front of a buffer. -/
def readShort : List Nat → Option (Nat × List Nat)
  | a :: b :: rest => some (a * 256 + b, rest)
  | _ => none

/-- Read a 4-byte big-endian unsigned integer off the front of a buffer. -/
def readLong : List Nat → Option (Nat × List Nat)
  | a :: b :: c :: d :: rest => some (((a * 256 + b) * 256 + c) * 256 + d, rest)
  | _ => none

/-! ## Cell type registry

Each Python cell class contributes its class-level attributes `NAME`, `VALUE`
and `IS_FIXED_SIZE`; `for_circuit` records whether the class derives from
`CircuitCell`.  The two abstract base classes `Cell` and `CircuitCell` carry
the default attributes `NAME = UNKNOWN`, `VALUE = -1`, `IS_FIXED_SIZE = False`
and take part in the introspective registry scan exactly like the concrete
classes. -/

structure CellClass where
  name : String
  value : Int
  fixed_size : Bool
  for_circuit : Bool
deriving DecidableEq

def CellBase : CellClass := ⟨"UNKNOWN", -1, false, false⟩
def CircuitCellBase : CellClass := ⟨"UNKNOWN", -1, false, true⟩
def PaddingCell : CellClass := ⟨"PADDING", 0, true, false⟩
def CreateCell : CellClass := ⟨"CREATE", 1, true, true⟩
def CreatedCell : CellClass := ⟨"CREATED", 2, true, true⟩
def RelayCell : CellClass := ⟨"RELAY", 3, true, true⟩
def DestroyCell : CellClass := ⟨"DESTROY", 4, true, true⟩
def CreateFastCell : CellClass := ⟨"CREATE_FAST", 5, true, true⟩
def CreatedFastCell : CellClass := ⟨"CREATED_FAST", 6, true, true⟩
def VersionsCell : CellClass := ⟨"VERSIONS", 7, false, false⟩
def NetinfoCell : CellClass := ⟨"NETINFO", 8, true, false⟩
def RelayEarlyCell : CellClass := ⟨"RELAY_EARLY", 9, true, true⟩
def Create2Cell : CellClass := ⟨"CREATE2", 10, true, true⟩
def Created2Cell : CellClass := ⟨"CREATED2", 11, true, false⟩
def PaddingNegotiateCell : CellClass := ⟨"PADDING_NEGOTIATE", 12, true, false⟩
def VPaddingCell : CellClass := ⟨"VPADDING", 128, false, false⟩
def CertsCell : CellClass := ⟨"CERTS", 129, false, false⟩
def AuthChallengeCell : CellClass := ⟨"AUTH_CHALLENGE", 130, false, false⟩
def AuthenticateCell : CellClass := ⟨"AUTHENTICATE", 131, false, false⟩
def AuthorizeCell : CellClass := ⟨"AUTHORIZE", 132, false, false⟩

/-- The cell classes of the module in the relative order `inspect.getmembers`
yields them (sorted by Python identifier).  The scan in fact visits every
module member, not only these classes; `getmembers` below gives the full
member list, and this restriction to the cell classes is exact for value
lookups on any query and for name lookups on any query other than the
`UNDEFINED` sentinel string (see `by_name_members`). -/
def moduleClasses : List CellClass :=
  [AuthChallengeCell, AuthenticateCell, AuthorizeCell, CellBase, CertsCell,
   CircuitCellBase, Create2Cell, CreateCell, CreateFastCell, Created2Cell,
   CreatedCell, CreatedFastCell, DestroyCell, NetinfoCell, PaddingCell,
   PaddingNegotiateCell, RelayCell, RelayEarlyCell, VPaddingCell, VersionsCell]

/-- The eighteen registered (concrete) commands: the module classes other
than the two abstract bases, i.e. those with a non-negative wire value. -/
def registeredCells : List CellClass :=
  moduleClasses.filter (fun cls => decide (0 ≤ cls.value))

inductive LookupError
  | notFoundName (name : String)
  | notFoundValue (value : Int)
deriving DecidableEq

/-- Model of Cell.by_name restricted to the cell-class members: the first
class whose NAME attribute equals the query, else ValueError (here
notFoundName, carrying the query).  This restriction misrepresents the
program at exactly one query, the UNDEFINED sentinel string — there the real
scan matches the first NAME-less member via the getattr default; the full
model `by_name_members` below covers that case. -/
def by_name (name : String) : Except LookupError CellClass :=
  match moduleClasses.find? (fun cls => cls.name == name) with
  | some cls => .ok cls
  | none => .error (.notFoundName name)

/-- Model of Cell.by_value restricted to the cell-class members: the first
class whose VALUE attribute equals the query, else ValueError (here
notFoundValue, carrying the query).  This restriction is exact for every
integer query: a member without the attribute yields the string sentinel
from getattr, which no integer equals. -/
def by_value (value : Int) : Except LookupError CellClass :=
  match moduleClasses.find? (fun cls => cls.value == value) with
  | some cls => .ok cls
  | none => .error (.notFoundValue value)

/-! ## The full introspective scan

`inspect.getmembers` yields every member of the module, not only the cell
classes: the imported modules and constants and the module dunders are
visited too, and the source compares the query against
`getattr(member, NAME, UNDEFINED)` — the UNDEFINED sentinel for members
lacking the attribute.  A name query equal to the sentinel string therefore
matches the first attribute-less member (the Pack class, sorting between
NetinfoCell and PaddingCell) instead of raising.  An integer value query can
never equal the string sentinel, so value lookups see the cell classes
only. -/

/-- The UNDEFINED sentinel of stem, the getattr default the scan compares
against for members lacking a NAME or VALUE attribute. -/
def UNDEFINED : String := "<Undefined_ >"

/-- A module member as the introspective scan sees it: a cell class carrying
NAME/VALUE attributes, or any other member (imported module or constant,
module dunder), identified by its Python name and carrying neither
attribute. -/
inductive ModuleMember
  | cellClass (cls : CellClass)
  | plain (pyName : String)
deriving DecidableEq

/-- getattr(member, NAME, UNDEFINED). -/
def memberName : ModuleMember → String
  | .cellClass cls => cls.name
  | .plain _ => UNDEFINED

/-- getattr(member, VALUE, UNDEFINED), as an integer where the attribute is
present; a member without it yields the string sentinel, which the model
renders as none since no integer query equals it. -/
def memberValue : ModuleMember → Option Int
  | .cellClass cls => some cls.value
  | .plain _ => none

/-- value == getattr(member, VALUE, UNDEFINED), for an integer query. -/
def memberValueMatches (value : Int) : ModuleMember → Bool
  | .cellClass cls => cls.value == value
  | .plain _ => false

/-- Every module member in getmembers order (sorted by identifier): the
twenty cell classes interleaved with the imported constants (Pack between
NetinfoCell and PaddingCell, then UNDEFINED, ZERO), the module dunders, and
the imported modules.  Among the attribute-less members only the position of
the first, Pack, can influence a lookup result: the rest match only the
sentinel query, which Pack has already answered. -/
def getmembers : List ModuleMember :=
  [.cellClass AuthChallengeCell, .cellClass AuthenticateCell,
   .cellClass AuthorizeCell, .cellClass CellBase, .cellClass CertsCell,
   .cellClass CircuitCellBase, .cellClass Create2Cell, .cellClass CreateCell,
   .cellClass CreateFastCell, .cellClass Created2Cell, .cellClass CreatedCell,
   .cellClass CreatedFastCell, .cellClass DestroyCell, .cellClass NetinfoCell,
   .plain "Pack", .cellClass PaddingCell, .cellClass PaddingNegotiateCell,
   .cellClass RelayCell, .cellClass RelayEarlyCell, .plain "UNDEFINED",
   .cellClass VPaddingCell, .cellClass VersionsCell, .plain "ZERO",
   .plain "__builtins__", .plain "__cached__", .plain "__doc__",
   .plain "__file__", .plain "__loader__", .plain "__name__",
   .plain "__package__", .plain "__spec__", .plain "collections",
   .plain "inspect", .plain "struct", .plain "sys"]

/-- Model of Cell.by_name over the full scan: the first member whose NAME
attribute — or the UNDEFINED getattr default when it has none — equals the
query; ValueError (notFoundName, carrying the query) when none matches. -/
def by_name_members (name : String) : Except LookupError ModuleMember :=
  match getmembers.find? (fun m => memberName m == name) with
  | some m => .ok m
  | none => .error (.notFoundName name)

/-- Model of Cell.by_value over the full scan: the first member whose VALUE
attribute equals the integer query (an attribute-less member never matches,
its getattr default being the string sentinel); ValueError (notFoundValue,
carrying the query) when none matches. -/
def by_value_members (value : Int) : Except LookupError ModuleMember :=
  match getmembers.find? (memberValueMatches value) with
  | some m => .ok m
  | none => .error (.notFoundValue value)

/-! ## Generic cell framer: `Cell._pack` -/

inductive PackError
  | payloadTooLarge (name : String) (actual : Nat) (limit : Nat)
  | missingCircuitId (name : String)
  | structError
deriving DecidableEq

/-- The version-derived fixed total cell length (`fixed_cell_len`). -/
def fixed_cell_len (link_version : Nat) : Nat :=
  if link_version > 3 then 514 else 512

/-- Model of Cell._pack: circuit id as a 4-byte field when link_version > 3
else 2-byte, then the 1-byte command value, then (variable-size only) a
2-byte payload length, then the payload; fixed-size cells are zero-padded to
fixed_cell_len, or rejected with PayloadTooLargeError when already longer. -/
def cellPack (cls : CellClass) (link_version : Nat) (payload : List Nat)
    (circ_id : Nat) : Except PackError (List Nat) :=
  match (if link_version > 3 then packLong circ_id else packShort circ_id) with
  | none => .error .structError
  | some packed_circ_id =>
    match packChar cls.value with
    | none => .error .structError
    | some packed_command =>
      match (if cls.fixed_size then some [] else packShort payload.length) with
      | none => .error .structError
      | some packed_size =>
        let cell := packed_circ_id ++ packed_command ++ packed_size ++ payload
        if cls.fixed_size then
          if fixed_cell_len link_version < cell.length then
            .error (.payloadTooLarge cls.name cell.length
              (fixed_cell_len link_version))
          else
            .ok (cell ++ List.replicate (fixed_cell_len link_version - cell.length) 0)
        else
          .ok cell

/-! ## Circuit cell rule: `CircuitCell._pack`

Transcribed literally from the source: the auto-assign branch fires when the
caller passed no id AND the command name starts with the string CREATE, and
EVERY other case — including an explicitly supplied id — falls into the
`else: raise` branch. -/

/-- Model of Python str.startswith, on the character lists of the strings. -/
def nameStartsWith (s pre : String) : Bool :=
  s.toList.take pre.toList.length == pre.toList

/-- Model of CircuitCell._pack, taking the (possibly absent) circuit id. -/
def circuitCellPack (cls : CellClass) (link_version : Nat) (payload : List Nat)
    (circ_id : Option Nat) : Except PackError (List Nat) :=
  if circ_id = none ∧ nameStartsWith cls.name "CREATE" then
    cellPack cls link_version payload
      (if link_version > 3 then 0x80000000 else 0x01)
  else
    .error (.missingCircuitId cls.name)

/-! ## VersionsCell.pack -/

/-- Payload of a VERSIONS cell: each advertised version as a 2-byte
big-endian field, in caller-supplied order. -/
def versionsPayload : List Nat → Option (List Nat)
  | [] => some []
  | v :: rest => do
    let b ← packShort v
    let r ← versionsPayload rest
    pure (b ++ r)

/-- Model of VersionsCell.pack: build the concatenated 2-byte version fields
and frame them with Cell._pack at the assumed link_version 3 (circuit id 0,
the default of Cell._pack). -/
def versionsCellPack (versions : List Nat) : Except PackError (List Nat) :=
  match versionsPayload versions with
  | some payload => cellPack VersionsCell 3 payload 0
  | none => .error .structError

/-! ## Generic cell framer: unpack -/

inductive UnpackError
  | unknownCommand (value : Nat)
  | truncated
deriving DecidableEq

/-- A decoded cell: resolved command class, circuit id, logical payload. -/
structure UnpackedCell where
  cls : CellClass
  circ_id : Nat
  payload : List Nat
deriving DecidableEq

/-- Modelled from the spec: the repository ships no `unpack` under `src/`
(the module overview advertises one but the body does not define it), so the
decoder is taken from spec section 4.3.  Read the circuit id (2 bytes when
link_version is at most 3, else 4), read the 1-byte command and resolve it
through the registry (UnknownCommandError on no match); for a fixed-size
command the payload is the remainder of the version-derived fixed length
after the header, and for a variable-size command a 2-byte declared length
prefixes exactly that many payload bytes (TruncatedCellError when fewer bytes
remain).  Returns the decoded cell and the count of bytes consumed. -/
def cellUnpack (link_version : Nat) (buf : List Nat) :
    Except UnpackError (UnpackedCell × Nat) :=
  match (if link_version > 3 then readLong buf else readShort buf) with
  | none => .error .truncated
  | some (circ_id, rest1) =>
    match rest1 with
    | [] => .error .truncated
    | cmd :: rest2 =>
      match by_value (Int.ofNat cmd) with
      | .error _ => .error (.unknownCommand cmd)
      | .ok cls =>
        let header := (if link_version > 3 then 4 else 2) + 1
        if cls.fixed_size then
          let plen := fixed_cell_len link_version - header
          if plen ≤ rest2.length then
            .ok (⟨cls, circ_id, rest2.take plen⟩, fixed_cell_len link_version)
          else .error .truncated
        else
          match readShort rest2 with
          | none => .error .truncated
          | some (declared, rest3) =>
            if declared ≤ rest3.length then
              .ok (⟨cls, circ_id, rest3.take declared⟩, header + 2 + declared)
            else .error .truncated

/-! ## Helper notions used in the statements and proofs -/

/-- The exclusive upper bound struct.pack imposes on the circuit id for a
given link_version: 2^16 for the 2-byte field, 2^32 for the 4-byte one. -/
def idBound (link_version : Nat) : Nat :=
  if link_version > 3 then 4294967296 else 65536

/-- The big-endian circuit-id field bytes for a given link_version. -/
def idEnc (link_version c : Nat) : List Nat :=
  if link_version > 3 then
    [c / 16777216, c / 65536 % 256, c / 256 % 256, c % 256]
  else
    [c / 256, c % 256]

/-- Width of circuit-id field plus command byte. -/
def headerLen (link_version : Nat) : Nat :=
  (if link_version > 3 then 4 else 2) + 1

theorem readShort_enc (c : Nat) (r : List Nat) :
    readShort (c / 256 :: c % 256 :: r) = some (c, r) := by
  simp only [readShort, Option.some.injEq, Prod.mk.injEq, and_true]
  omega

theorem readLong_enc (c : Nat) (hc : c < 4294967296) (r : List Nat) :
    readLong (c / 16777216 :: c / 65536 % 256 :: c / 256 % 256 :: c % 256 :: r) =
      some (c, r) := by
  simp only [readLong, Option.some.injEq, Prod.mk.injEq, and_true]
  omega

theorem idEnc_pack (v c : Nat) (hc : c < idBound v) :
    (if v > 3 then packLong c else packShort c) = some (idEnc v c) := by
  by_cases hv : v > 3 <;>
    simp only [idBound, hv, if_true, if_false, ite_true, ite_false] at hc ⊢ <;>
    simp [packLong, packShort, idEnc, hc, hv]

theorem idEnc_read (v c : Nat) (hc : c < idBound v) (r : List Nat) :
    (if v > 3 then readLong (idEnc v c ++ r) else readShort (idEnc v c ++ r)) =
      some (c, r) := by
  by_cases hv : v > 3 <;>
    simp only [idBound, idEnc, hv, ite_true, ite_false, List.cons_append,
      List.nil_append] at hc ⊢
  · exact readLong_enc c hc r
  · exact readShort_enc c r

theorem idEnc_length (v c : Nat) : (idEnc v c).length = if v > 3 then 4 else 2 := by
  by_cases hv : v > 3 <;> simp [idEnc, hv]

theorem idEnc_len_add_one (v c : Nat) : (idEnc v c).length + 1 = headerLen v := by
  by_cases hv : v > 3 <;> simp [idEnc, headerLen, hv]

theorem fixed_len_headerLen (v : Nat) : fixed_cell_len v = headerLen v + 509 := by
  by_cases hv : v > 3 <;> simp [fixed_cell_len, headerLen, hv]

theorem packChar_of_bounds (x : Int) (h0 : 0 ≤ x) (h1 : x < 256) :
    packChar x = some [x.toNat] := by
  simp [packChar, h0, h1]

/-- Shape of a successfully packed fixed-size cell: circuit-id field, command
byte, the payload, then zero padding up to capacity (509 payload bytes at
every link version, since 512 = 2 + 1 + 509 and 514 = 4 + 1 + 509). -/
theorem cellPack_fixed (cls : CellClass) (hfx : cls.fixed_size = true)
    (h0 : 0 ≤ cls.value) (h1 : cls.value < 256) (v c : Nat) (hc : c < idBound v)
    (payload : List Nat) (hlen : payload.length ≤ 509) :
    cellPack cls v payload c =
      .ok (idEnc v c ++ cls.value.toNat ::
        (payload ++ List.replicate (509 - payload.length) 0)) := by
  unfold cellPack
  rw [idEnc_pack v c hc, packChar_of_bounds cls.value h0 h1, hfx]
  have hL : (idEnc v c ++ [cls.value.toNat] ++ [] ++ payload).length =
      headerLen v + payload.length := by
    simp [idEnc_length, headerLen]
    by_cases hv : v > 3 <;> simp [hv] <;> omega
  have hcap : ¬ fixed_cell_len v < (idEnc v c ++ [cls.value.toNat] ++ [] ++ payload).length := by
    rw [hL]
    by_cases hv : v > 3 <;> simp [fixed_cell_len, headerLen, hv] <;> omega
  simp only [ite_true, hcap, if_false, Except.ok.injEq]
  rw [hL]
  have hpad : fixed_cell_len v - (headerLen v + payload.length) = 509 - payload.length := by
    by_cases hv : v > 3 <;> simp [fixed_cell_len, headerLen, hv] <;> omega
  rw [hpad]
  simp

/-- Shape of a successfully packed variable-size cell: circuit-id field,
command byte, 2-byte big-endian payload length, then the payload verbatim. -/
theorem cellPack_var (cls : CellClass) (hfx : cls.fixed_size = false)
    (h0 : 0 ≤ cls.value) (h1 : cls.value < 256) (v c : Nat) (hc : c < idBound v)
    (payload : List Nat) (hlen : payload.length < 65536) :
    cellPack cls v payload c =
      .ok (idEnc v c ++ cls.value.toNat ::
        payload.length / 256 :: payload.length % 256 :: payload) := by
  unfold cellPack
  rw [idEnc_pack v c hc, packChar_of_bounds cls.value h0 h1, hfx]
  have hsz : packShort payload.length = some [payload.length / 256, payload.length % 256] := by
    simp [packShort, hlen]
  simp only [ite_false, hsz, Except.ok.injEq]
  simp

/-- Decoding a buffer that starts with a well-formed circuit-id field and a
registered command byte: the decoder resolves the command and splits the
remainder per the command's fixed/variable framing. -/
theorem cellUnpack_header (v c : Nat) (hc : c < idBound v) (cls : CellClass)
    (b : Nat) (hb : by_value (Int.ofNat b) = .ok cls) (rest : List Nat) :
    cellUnpack v (idEnc v c ++ b :: rest) =
      (if cls.fixed_size then
        (if 509 ≤ rest.length then
          .ok (⟨cls, c, rest.take 509⟩, fixed_cell_len v)
         else .error .truncated)
       else
        (match readShort rest with
         | none => .error .truncated
         | some (declared, rest3) =>
            if declared ≤ rest3.length then
              .ok (⟨cls, c, rest3.take declared⟩, headerLen v + 2 + declared)
            else .error .truncated)) := by
  unfold cellUnpack
  rw [idEnc_read v c hc]
  simp only [hb]
  have hplen : fixed_cell_len v - ((if v > 3 then 4 else 2) + 1) = 509 := by
    by_cases hv : v > 3 <;> simp [fixed_cell_len, hv]
  rw [hplen]
  rfl

/-- Every registered command has a wire value in 0..255 and is the unique
registry entry with its value (so by_value resolves it to itself). -/
theorem registered_facts : ∀ cls ∈ registeredCells,
    (0 ≤ cls.value ∧ cls.value < 256) ∧ by_value cls.value = .ok cls := by decide

theorem by_value_toNat (cls : CellClass) (h0 : 0 ≤ cls.value)
    (h : by_value cls.value = .ok cls) :
    by_value (Int.ofNat cls.value.toNat) = .ok cls := by
  have he : Int.ofNat cls.value.toNat = cls.value := by
    rw [Int.ofNat_eq_natCast]
    omega
  rwa [he]

/-! ## Claim theorems -/

/-- Claim C1 (the code diverges from it): `CircuitCell._pack` in the source
raises `ValueError(... requires a circ_id)` for EVERY explicitly supplied
circuit id, on every circuit-scoped command and every link version — the
`if circ_id is None and NAME.startswith(CREATE)` / `else raise` conditional
sends the explicit-id case into the raise branch, so an explicit id is never
used, contradicting the claim that it is emitted unmodified without failing. -/
theorem circuit_pack_rejects_explicit_id (cls : CellClass) (v : Nat)
    (payload : List Nat) (c : Nat) :
    circuitCellPack cls v payload (some c) =
      .error (.missingCircuitId cls.name) := by
  simp [circuitCellPack]

set_option maxRecDepth 10000 in
/-- Claim C2 (the code diverges from it): packing CREATED or CREATED_FAST
with no circuit id does NOT fail — `NAME.startswith(CREATE)` matches those
names too, so the code auto-assigns the initiator default id 1 (at
link_version 3) and returns a full packed cell; only RELAY, DESTROY and
RELAY_EARLY actually raise the missing-id error as the claim states. -/
theorem created_pack_missing_id_succeeds :
    circuitCellPack CreatedCell 3 [] none =
      .ok ([0, 1, 2] ++ List.replicate 509 0) ∧
    circuitCellPack CreatedFastCell 3 [] none =
      .ok ([0, 1, 6] ++ List.replicate 509 0) ∧
    circuitCellPack DestroyCell 3 [] none =
      .error (.missingCircuitId "DESTROY") ∧
    circuitCellPack RelayCell 3 [] none =
      .error (.missingCircuitId "RELAY") ∧
    circuitCellPack RelayEarlyCell 3 [] none =
      .error (.missingCircuitId "RELAY_EARLY") := by decide

set_option maxRecDepth 10000 in
/-- Claim C3 counterexample: the round trip does not return the original
cell for every payload length the framing allows.  A PADDING cell (fixed
size) packed at link_version 3 with the empty payload decodes to a payload of
509 zero bytes — the zero padding of the fixed frame is part of the decoded
remainder per spec section 4.3 — which differs from the original empty
payload. -/
theorem fixed_roundtrip_counterexample :
    cellPack PaddingCell 3 [] 0 = .ok (List.replicate 512 0) ∧
    cellUnpack 3 (List.replicate 512 0) =
      .ok (⟨PaddingCell, 0, List.replicate 509 0⟩, 512) ∧
    List.replicate 509 (0 : Nat) ≠ ([] : List Nat) := by decide

/-- Claim C3 (amended): for every registered command and any link version,
unpacking the bytes produced by packing recovers the command, the circuit id
and the byte count consumed; the payload is recovered exactly for
variable-size commands (any length up to 65535) and for fixed-size commands
whose payload fills the full 509-byte capacity, while a shorter fixed-size
payload decodes to the original payload right-padded with zeros to
capacity. -/
theorem pack_unpack_roundtrip_amended (cls : CellClass)
    (hreg : cls ∈ registeredCells) (v circ_id : Nat) (payload : List Nat)
    (hcid : circ_id < idBound v) :
    (cls.fixed_size = false → payload.length < 65536 →
      ∃ out, cellPack cls v payload circ_id = .ok out ∧
        cellUnpack v out = .ok (⟨cls, circ_id, payload⟩, out.length)) ∧
    (cls.fixed_size = true → payload.length ≤ 509 →
      ∃ out, cellPack cls v payload circ_id = .ok out ∧
        out.length = fixed_cell_len v ∧
        cellUnpack v out =
          .ok (⟨cls, circ_id,
                payload ++ List.replicate (509 - payload.length) 0⟩,
               out.length)) ∧
    (cls.fixed_size = true → payload.length = 509 →
      ∃ out, cellPack cls v payload circ_id = .ok out ∧
        cellUnpack v out = .ok (⟨cls, circ_id, payload⟩, out.length)) := by
  obtain ⟨⟨h0, h1⟩, hbv⟩ := registered_facts cls hreg
  have hb := by_value_toNat cls h0 hbv
  have hfixed : cls.fixed_size = true → payload.length ≤ 509 →
      ∃ out, cellPack cls v payload circ_id = .ok out ∧
        out.length = fixed_cell_len v ∧
        cellUnpack v out =
          .ok (⟨cls, circ_id,
                payload ++ List.replicate (509 - payload.length) 0⟩,
               out.length) := by
    intro hfx hlen
    have hrest : (payload ++ List.replicate (509 - payload.length) 0).length = 509 := by
      simp
      omega
    have htake : List.take 509 (payload ++ List.replicate (509 - payload.length) 0) =
        payload ++ List.replicate (509 - payload.length) 0 :=
      List.take_of_length_le (le_of_eq hrest)
    have hout_len : (idEnc v circ_id ++ cls.value.toNat ::
        (payload ++ List.replicate (509 - payload.length) 0)).length =
        fixed_cell_len v := by
      have h1 := idEnc_len_add_one v circ_id
      have h2 := fixed_len_headerLen v
      simp only [List.length_append, List.length_cons, List.length_replicate]
      omega
    refine ⟨_, cellPack_fixed cls hfx h0 h1 v circ_id hcid payload hlen,
      hout_len, ?_⟩
    rw [cellUnpack_header v circ_id hcid cls cls.value.toNat hb, hfx]
    simp only [ite_true, hrest, le_refl, htake, hout_len]
  refine ⟨?_, hfixed, ?_⟩
  · intro hfx hlen
    refine ⟨_, cellPack_var cls hfx h0 h1 v circ_id hcid payload hlen, ?_⟩
    rw [cellUnpack_header v circ_id hcid cls cls.value.toNat hb, hfx]
    have hd : payload.length / 256 * 256 + payload.length % 256 = payload.length := by
      omega
    have hout_len : (idEnc v circ_id ++ cls.value.toNat ::
        payload.length / 256 :: payload.length % 256 :: payload).length =
        headerLen v + 2 + payload.length := by
      have h1 := idEnc_len_add_one v circ_id
      simp only [List.length_append, List.length_cons]
      omega
    simp only [Bool.false_eq_true, ite_false, readShort, hd, le_refl,
      ite_true, List.take_length, hout_len]
  · intro hfx hlen
    obtain ⟨out, hpack, hlenL, hunp⟩ := hfixed hfx (le_of_eq hlen)
    refine ⟨out, hpack, ?_⟩
    rw [hunp, hlen]
    simp

/-- Witness for the amended C3 at a concrete input: a 1-byte VPADDING
payload round-trips exactly through pack and unpack at link_version 3. -/
theorem pack_unpack_roundtrip_amended_witness :
    VPaddingCell ∈ registeredCells ∧
    (∃ out, cellPack VPaddingCell 3 [7] 0 = .ok out ∧
      cellUnpack 3 out = .ok (⟨VPaddingCell, 0, [7]⟩, out.length)) :=
  ⟨by decide,
   (pack_unpack_roundtrip_amended VPaddingCell (by decide) 3 0 [7]
     (by decide)).1 rfl (by decide)⟩

/-- Claim C4: for the circuit-initiating commands CREATE, CREATE_FAST and
CREATE2, packing with no circuit id supplied delegates to the generic framer
with the auto-assigned id 1 when link_version is at most 3 and 0x80000000
when link_version exceeds 3. -/
theorem create_auto_assign (cls : CellClass)
    (h : cls ∈ [CreateCell, CreateFastCell, Create2Cell]) (v : Nat)
    (payload : List Nat) :
    circuitCellPack cls v payload none =
      cellPack cls v payload (if v > 3 then 0x80000000 else 0x01) := by
  have hsw : nameStartsWith cls.name "CREATE" = true := by
    fin_cases h <;> decide
  unfold circuitCellPack
  rw [if_pos ⟨rfl, hsw⟩]

/-- Witness for C4 at a concrete input: a CREATE cell at link_version 3 with
no circuit id packs as the generic framer does with circuit id 1. -/
theorem create_auto_assign_witness :
    circuitCellPack CreateCell 3 [] none = cellPack CreateCell 3 [] 1 :=
  create_auto_assign CreateCell (by decide) 3 []

/-- Claim C5: a fixed-size cell that packs successfully is exactly 512 bytes
long at link_version up to 3 and 514 bytes beyond, and every byte after the
header and payload is zero. -/
theorem fixed_pack_length_padding (cls : CellClass)
    (hreg : cls ∈ registeredCells) (hfx : cls.fixed_size = true)
    (v circ_id : Nat) (payload : List Nat) (hcid : circ_id < idBound v)
    (hlen : payload.length ≤ 509) :
    ∃ out, cellPack cls v payload circ_id = .ok out ∧
      out.length = (if v > 3 then 514 else 512) ∧
      out.drop (headerLen v + payload.length) =
        List.replicate ((if v > 3 then 514 else 512) - (headerLen v + payload.length)) 0 := by
  obtain ⟨⟨h0, h1⟩, _⟩ := registered_facts cls hreg
  have hfc : (if v > 3 then (514 : Nat) else 512) = fixed_cell_len v := rfl
  have h1e := idEnc_len_add_one v circ_id
  have h2e := fixed_len_headerLen v
  refine ⟨_, cellPack_fixed cls hfx h0 h1 v circ_id hcid payload hlen, ?_, ?_⟩
  · rw [hfc]
    simp only [List.length_append, List.length_cons, List.length_replicate]
    omega
  · rw [hfc]
    have hsplit : idEnc v circ_id ++ cls.value.toNat ::
        (payload ++ List.replicate (509 - payload.length) 0) =
        (idEnc v circ_id ++ cls.value.toNat :: payload) ++
          List.replicate (509 - payload.length) 0 := by
      rw [List.append_assoc, List.cons_append]
    rw [hsplit]
    have hpre : (idEnc v circ_id ++ cls.value.toNat :: payload).length =
        headerLen v + payload.length := by
      simp only [List.length_append, List.length_cons]
      omega
    rw [← hpre, List.drop_left]
    congr 1
    omega

set_option maxRecDepth 10000 in
/-- Witness for C5 at a concrete input: a PADDING cell at link_version 3
with a 1-byte payload packs to 512 bytes whose last 508 bytes are zero. -/
theorem fixed_pack_length_padding_witness :
    ∃ out, cellPack PaddingCell 3 [1] 0 = .ok out ∧
      out.length = 512 ∧ out.drop 4 = List.replicate 508 0 := by
  have h := fixed_pack_length_padding PaddingCell (by decide) rfl 3 0 [1]
    (by decide) (by decide)
  simpa [headerLen] using h

/-- Claim C6: a fixed-size cell whose header plus payload exceeds the
version-derived fixed length fails with PayloadTooLargeError carrying the
command name, the actual byte count, and the fixed length, and emits no
output. -/
theorem fixed_pack_oversize (cls : CellClass) (hreg : cls ∈ registeredCells)
    (hfx : cls.fixed_size = true) (v circ_id : Nat) (payload : List Nat)
    (hcid : circ_id < idBound v) (hlen : 509 < payload.length) :
    cellPack cls v payload circ_id =
      .error (.payloadTooLarge cls.name (headerLen v + payload.length)
        (fixed_cell_len v)) := by
  obtain ⟨⟨h0, h1⟩, _⟩ := registered_facts cls hreg
  unfold cellPack
  rw [idEnc_pack v circ_id hcid, packChar_of_bounds cls.value h0 h1, hfx]
  have h1e := idEnc_len_add_one v circ_id
  have h2e := fixed_len_headerLen v
  have hL : (idEnc v circ_id ++ [cls.value.toNat] ++ [] ++ payload).length =
      headerLen v + payload.length := by
    simp only [List.length_append, List.length_cons, List.length_nil]
    omega
  have hover : fixed_cell_len v <
      (idEnc v circ_id ++ [cls.value.toNat] ++ [] ++ payload).length := by
    rw [hL]
    omega
  simp only [ite_true, hover, if_true]
  rw [hL]

set_option maxRecDepth 10000 in
/-- Witness for C6 at the input named by the spec: a DESTROY cell at
link_version 3 with a 510-byte payload (3-byte header makes 513 bytes) fails
with PayloadTooLargeError DESTROY 513 512. -/
theorem fixed_pack_oversize_witness :
    cellPack DestroyCell 3 (List.replicate 510 0) 1 =
      .error (.payloadTooLarge "DESTROY" 513 512) := by
  have h := fixed_pack_oversize DestroyCell (by decide) rfl 3 1
    (List.replicate 510 0) (by decide) (by simp)
  simpa [headerLen, fixed_cell_len] using h

/-- Claim C7: the registry holds exactly the eighteen commands with the
listed wire values (shown in the alphabetical order the introspective scan
produces); exactly the twelve listed commands are fixed-size; exactly the
eight listed commands are circuit-scoped, CREATED2 not among them. -/
theorem registry_contents :
    registeredCells.map (fun cls => (cls.name, cls.value)) =
      [("AUTH_CHALLENGE", 130), ("AUTHENTICATE", 131), ("AUTHORIZE", 132),
       ("CERTS", 129), ("CREATE2", 10), ("CREATE", 1), ("CREATE_FAST", 5),
       ("CREATED2", 11), ("CREATED", 2), ("CREATED_FAST", 6), ("DESTROY", 4),
       ("NETINFO", 8), ("PADDING", 0), ("PADDING_NEGOTIATE", 12),
       ("RELAY", 3), ("RELAY_EARLY", 9), ("VPADDING", 128), ("VERSIONS", 7)] ∧
    (registeredCells.filter (fun cls => cls.fixed_size)).map CellClass.name =
      ["CREATE2", "CREATE", "CREATE_FAST", "CREATED2", "CREATED",
       "CREATED_FAST", "DESTROY", "NETINFO", "PADDING", "PADDING_NEGOTIATE",
       "RELAY", "RELAY_EARLY"] ∧
    (registeredCells.filter (fun cls => cls.for_circuit)).map CellClass.name =
      ["CREATE2", "CREATE", "CREATE_FAST", "CREATED", "CREATED_FAST",
       "DESTROY", "RELAY", "RELAY_EARLY"] ∧
    Created2Cell.for_circuit = false := by decide

/-- Claim C8 counterexample: the name UNKNOWN names no registered command,
yet the scan does not fail on it — it matches the abstract base class — and
likewise the value -1; and the UNDEFINED sentinel string, also no registered
name, matches the attribute-less Pack member via the getattr default instead
of raising. -/
theorem lookup_unknown_not_error :
    "UNKNOWN" ∉ registeredCells.map CellClass.name ∧
    by_name_members "UNKNOWN" ≠ .error (.notFoundName "UNKNOWN") ∧
    (-1 : Int) ∉ registeredCells.map CellClass.value ∧
    by_value_members (-1) ≠ .error (.notFoundValue (-1)) ∧
    UNDEFINED ∉ registeredCells.map CellClass.name ∧
    by_name_members UNDEFINED ≠ .error (.notFoundName UNDEFINED) := by decide

/-- Claim C8 (amended), over the full introspective scan: a name lookup
fails with the NotFoundError carrying the queried name exactly when the name
matches no member — so every name other than the eighteen registered names,
the base classes' default UNKNOWN, and the getattr sentinel (which instead
returns the first attribute-less member, the Pack class); a value lookup
fails with the NotFoundError carrying the queried value for every value
other than the eighteen registered values and the bases' -1; and each
registered key resolves to its own class. -/
theorem lookup_contract_amended (name : String) (value : Int)
    (hn : name ∉ getmembers.map memberName)
    (hv : value ∉ getmembers.filterMap memberValue) :
    by_name_members name = .error (.notFoundName name) ∧
    by_value_members value = .error (.notFoundValue value) ∧
    (∀ cls ∈ registeredCells,
      by_name_members cls.name = .ok (.cellClass cls) ∧
      by_value_members cls.value = .ok (.cellClass cls)) ∧
    by_name_members UNDEFINED = .ok (.plain "Pack") := by
  refine ⟨?_, ?_, by decide, by decide⟩
  · unfold by_name_members
    have hnone : getmembers.find? (fun m => memberName m == name) = none := by
      rw [List.find?_eq_none]
      intro m hm hcontra
      exact hn (List.mem_map.mpr ⟨m, hm, by simpa using hcontra⟩)
    rw [hnone]
  · unfold by_value_members
    have hnone : getmembers.find? (memberValueMatches value) = none := by
      rw [List.find?_eq_none]
      intro m hm hcontra
      match m with
      | .plain s => simp [memberValueMatches] at hcontra
      | .cellClass cls =>
        refine hv (List.mem_filterMap.mpr ⟨.cellClass cls, hm, ?_⟩)
        have hvv : cls.value = value := by simpa [memberValueMatches] using hcontra
        simp [memberValue, hvv]
    rw [hnone]

/-- Witness for the amended C8 at concrete keys: the name FOO and the value
999 match no member and fail with the NotFoundError carrying the query. -/
theorem lookup_contract_amended_witness :
    by_name_members "FOO" = .error (.notFoundName "FOO") ∧
    by_value_members 999 = .error (.notFoundValue 999) :=
  ⟨(lookup_contract_amended "FOO" 999 (by decide) (by decide)).1,
   (lookup_contract_amended "FOO" 999 (by decide) (by decide)).2.1⟩

/-- Claim C9: packing the version list [5, 3, 4] yields the payload bytes
00 05 00 03 00 04 — each version a 2-byte big-endian field in caller order,
neither sorted nor deduplicated — framed by the generic framer at the
assumed link_version 3 (2-byte zero circuit id, command byte 7, 2-byte
length 6). -/
theorem versions_pack_order :
    versionsCellPack [5, 3, 4] =
      .ok ([0, 0] ++ [7] ++ [0, 6] ++ [0, 5, 0, 3, 0, 4]) ∧
    versionsCellPack [5, 3, 4] = cellPack VersionsCell 3 [0, 5, 0, 3, 0, 4] 0 := by
  decide

/-- Claim C10: looking up the unregistered name UNKNOWN or the unregistered
value -1 does not fail: each returns the abstract base cell class, whose
default attributes (NAME UNKNOWN, VALUE -1) the introspective registry scan
also matches. -/
theorem base_class_lookup :
    by_name "UNKNOWN" = .ok CellBase ∧
    by_value (-1) = .ok CellBase ∧
    CellBase.name = "UNKNOWN" ∧ CellBase.value = -1 ∧
    "UNKNOWN" ∉ registeredCells.map CellClass.name ∧
    ((-1 : Int) ∉ registeredCells.map CellClass.value) := by decide

end Stem
